import Mathlib

/-!
Verification of the `embedded-joystick` driver core (`src/lib.rs`).

Shallow embedding notes.

* Rust's `nb::Result<T, E> = Result<T, nb::Error<E>>` with
  `nb::Error<E> = WouldBlock | Other(E)` is embedded as
  `Except (NbError E) T`.
* The shared ADC peripheral (`&Mutex<RefCell<OS>>` with
  `OneShot::read(&mut self, &mut channel)`) is embedded as an explicit
  state-transition function `σ → C → NbResult W E × σ` stored in the
  `Axis`: calling it is the one raw sample `read_raw` performs inside the
  critical section.  The channel token is opaque and is not mutated by the
  model (matching every standard `Channel` implementation, where the token
  is a zero-sized marker).
* `f32` arithmetic is embedded over `ℚ`.  This is exact for the reachable
  values: the scale factor is `2^-r` (a power of two, exactly
  representable for `r ≤ 31`), the raw word types carrying `Into<f32>`
  are at most 16 bits wide (so conversion to `f32` is exact), and the
  product of a `< 2^24` integer with a power of two is again exactly
  representable, so no rounding occurs anywhere in the modelled range.
  The predicate `repF32` below characterises the finite binary32 values
  and is used to discharge the representability side conditions.
* `2u32.pow(resolution as u32)` from `Axis::new` is embedded twice:
  `u32Pow2Checked` (debug semantics: `none` models the overflow panic)
  and `u32Pow2Wrapping` (release semantics: wrap modulo `2^32`).  The
  `as u32` cast truncates the `usize` resolution modulo `2^32`
  (`usizeToU32`).
-/

namespace EmbeddedJoystick

/-- The `nb::Error<E>` type: a non-blocking operation either signals
`WouldBlock` (not ready, retry later) or a typed underlying error. -/
inductive NbError (E : Type) where
  | wouldBlock
  | other (e : E)
deriving DecidableEq, Repr

/-- `nb::Result<T, E>`: success with a `T`, or an `NbError E`. -/
abbrev NbResult (T E : Type) := Except (NbError E) T

/-- The `JoystickError<VE, HE>` tagged union: identifies which axis's
underlying ADC operation failed in a combined read. -/
inductive JoystickError (VE HE : Type) where
  | VerticalADCError (e : VE)
  | HorizontalADCError (e : HE)
deriving DecidableEq, Repr

/-- The `Display` implementation of `JoystickError`: both variants are
formatted by delegating to the inner error's own display output (the
source dispatches through `&dyn Display` and writes the inner value).
`dispV` and `dispH` stand for the `Display` impls of the two inner
error types. -/
def JoystickError.fmt (dispV : VE → String) (dispH : HE → String) :
    JoystickError VE HE → String
  | JoystickError.VerticalADCError e => dispV e
  | JoystickError.HorizontalADCError e => dispH e

/-- The size of the `u32` range. -/
def u32Size : Nat := 4294967296

/-- The `resolution as u32` cast in `Axis::new`: a `usize` value is
truncated modulo `2^32`. -/
def usizeToU32 (r : Nat) : Nat := r % u32Size

/-- `2u32.pow(n)` with debug (checked) semantics: `none` models the
overflow panic when `2^n` does not fit in a `u32`. -/
def u32Pow2Checked (n : Nat) : Option Nat :=
  if 2 ^ n < u32Size then some (2 ^ n) else none

/-- `2u32.pow(n)` with release (wrapping) semantics: the result modulo
`2^32`. -/
def u32Pow2Wrapping (n : Nat) : Nat := 2 ^ n % u32Size

/-- An `Axis`: one channel token, the shared ADC resource it reads
through (embedded as a state-transition function), the `Into<f32>`
conversion of the raw word type, and the construction-time scale factor
`_step`. -/
structure Axis (σ C W E : Type) where
  channel : C
  adcRead : σ → C → NbResult W E × σ
  into : W → ℚ
  _step : ℚ

/-- `Axis::new`: stores channel and ADC handle and computes
`_step = 1.0 / (2u32.pow(resolution as u32) as f32)`.  Returns `none`
when the power computation panics (debug overflow). -/
def Axis.new (adcRead : σ → C → NbResult W E × σ) (into : W → ℚ)
    (channel : C) (resolution : Nat) : Option (Axis σ C W E) :=
  (u32Pow2Checked (usizeToU32 resolution)).map fun p =>
    { channel := channel, adcRead := adcRead, into := into,
      _step := 1 / (p : ℚ) }

/-- `Axis::read_raw`: one sample on this axis's own channel through the
shared ADC resource (the critical-section bracketing around the single
call is not part of the sequential model). -/
def Axis.read_raw (a : Axis σ C W E) (s : σ) : NbResult W E × σ :=
  a.adcRead s a.channel

/-- `Axis::read`: on success scales the raw word by `_step`; any error
(including `WouldBlock`) propagates unchanged. -/
def Axis.read (a : Axis σ C W E) (s : σ) : NbResult ℚ E × σ :=
  match a.read_raw s with
  | (Except.ok raw_value, s₁) => (Except.ok (a._step * a.into raw_value), s₁)
  | (Except.error error, s₁) => (Except.error error, s₁)

/-- The logic level reported by a digital input pin. -/
inductive PinLevel where
  | high
  | low
deriving DecidableEq, Repr

/-- The `InputPin` capability consumed by the joystick: querying the
current logic level returns the level or a typed error, synchronously
(no would-block variant exists in its result type). -/
structure InputPin (SE : Type) where
  level : Except SE PinLevel

/-- `InputPin::is_high`: true exactly when the pin reports the
high/active level; errors propagate unchanged. -/
def InputPin.is_high (p : InputPin SE) : Except SE Bool :=
  match p.level with
  | Except.ok l => Except.ok (l = PinLevel.high)
  | Except.error e => Except.error e

/-- A `Joystick`: two axes plus the digital switch capability.  The two
axes read through the same collaborator-state type `σ`; when they share
one physical ADC their `adcRead` functions touch the same part of `σ`,
when the ADCs are distinct they touch disjoint components. -/
structure Joystick (σ V H WV WH EV EH SE : Type) where
  vertical : Axis σ V WV EV
  horizontal : Axis σ H WH EH
  switch : InputPin SE

/-- `Joystick::new`: wires the two axes (via `Axis::new`) and stores the
switch.  `none` models a panic in either scale-factor computation. -/
def Joystick.new (vertical_channel : V)
    (vertical_adc : σ → V → NbResult WV EV × σ) (intoV : WV → ℚ)
    (vertical_resolution : Nat) (horizontal_channel : H)
    (horizontal_adc : σ → H → NbResult WH EH × σ) (intoH : WH → ℚ)
    (horizontal_resolution : Nat) (switch : InputPin SE) :
    Option (Joystick σ V H WV WH EV EH SE) := do
  let v ← Axis.new vertical_adc intoV vertical_channel vertical_resolution
  let h ← Axis.new horizontal_adc intoH horizontal_channel
    horizontal_resolution
  pure { vertical := v, horizontal := h, switch := switch }

/-- `Joystick::get_vertical`: direct delegation to the vertical axis. -/
def Joystick.get_vertical (j : Joystick σ V H WV WH EV EH SE) (s : σ) :
    NbResult ℚ EV × σ :=
  j.vertical.read s

/-- `Joystick::get_horizontal`: direct delegation to the horizontal
axis. -/
def Joystick.get_horizontal (j : Joystick σ V H WV WH EV EH SE) (s : σ) :
    NbResult ℚ EH × σ :=
  j.horizontal.read s

/-- `Joystick::switch_pressed`: delegation to the switch capability's
`is_high` query.  Takes `&self` and never touches the ADC state. -/
def Joystick.switch_pressed (j : Joystick σ V H WV WH EV EH SE) :
    Except SE Bool :=
  j.switch.is_high

/-- `Joystick::get_position`: attempt the vertical read first; on
`WouldBlock` return `WouldBlock` immediately, on an underlying error
return it wrapped as `VerticalADCError`; only then attempt the
horizontal read with the same handling wrapped as `HorizontalADCError`;
if both succeed return the ordered pair. -/
def Joystick.get_position (j : Joystick σ V H WV WH EV EH SE) (s : σ) :
    NbResult (ℚ × ℚ) (JoystickError EV EH) × σ :=
  match j.get_vertical s with
  | (Except.error NbError.wouldBlock, s₁) =>
      (Except.error NbError.wouldBlock, s₁)
  | (Except.error (NbError.other e), s₁) =>
      (Except.error (NbError.other (JoystickError.VerticalADCError e)), s₁)
  | (Except.ok v, s₁) =>
      match j.get_horizontal s₁ with
      | (Except.error NbError.wouldBlock, s₂) =>
          (Except.error NbError.wouldBlock, s₂)
      | (Except.error (NbError.other e), s₂) =>
          (Except.error (NbError.other (JoystickError.HorizontalADCError e)),
            s₂)
      | (Except.ok h, s₂) => (Except.ok (v, h), s₂)

/-- The public read operations of the joystick, used to state frame
properties over whole method calls. -/
inductive JoyOp where
  | getVertical
  | getHorizontal
  | getPosition
  | switchPressed
deriving DecidableEq, Repr

/-- One public method call viewed as a transition on the full machine
configuration (the joystick's own fields together with the collaborator
state).  Mirrors the Rust methods taking `&mut self`: no method body
assigns to any field of `self`, so the joystick component of the
configuration is the method's `self` as the source leaves it, and only
the collaborator state advances. -/
def Joystick.runOp (j : Joystick σ V H WV WH EV EH SE) (s : σ) :
    JoyOp → Joystick σ V H WV WH EV EH SE × σ
  | JoyOp.getVertical => (j, (j.get_vertical s).2)
  | JoyOp.getHorizontal => (j, (j.get_horizontal s).2)
  | JoyOp.getPosition => (j, (j.get_position s).2)
  | JoyOp.switchPressed => (j, s)

/-- A rational is a finite binary32 value: `m * 2^e` with a 24-bit
significand and the binary32 exponent range. -/
def repF32 (q : ℚ) : Prop :=
  ∃ m : ℤ, ∃ e : ℤ,
    m.natAbs < 2 ^ 24 ∧ -149 ≤ e ∧ e ≤ 104 ∧ q = (m : ℚ) * (2 : ℚ) ^ e

/-- A mock ADC whose next sample succeeds with raw word `v`; the
collaborator state is a call counter. -/
def mockOk (v : Nat) : Nat → Unit → NbResult Nat Nat × Nat :=
  fun s _ => (Except.ok v, s + 1)

/-- A mock ADC whose next sample fails with the given `nb` error; the
collaborator state is a call counter. -/
def mockErr (r : NbError Nat) : Nat → Unit → NbResult Nat Nat × Nat :=
  fun s _ => (Except.error r, s + 1)

/-- The axis `Axis::new (mockOk v) () 8` produces: resolution 8, raw
word conversion by `Nat.cast`. -/
def mockAxis (v : Nat) : Axis Nat Unit Nat Nat :=
  { channel := (), adcRead := mockOk v, into := Nat.cast,
    _step := 1 / (2 : ℚ) ^ 8 }

/-- Lift a vertical ADC driver acting on its own collaborator state to
the product state of two distinct ADC collaborators: it touches only the
first component. -/
def liftV (f : σv → C → NbResult W E × σv) :
    σv × σh → C → NbResult W E × (σv × σh) :=
  fun s c => ((f s.1 c).1, ((f s.1 c).2, s.2))

/-- Lift a horizontal ADC driver to the product state: it touches only
the second component. -/
def liftH (g : σh → C → NbResult W E × σh) :
    σv × σh → C → NbResult W E × (σv × σh) :=
  fun s c => ((g s.2 c).1, (s.1, (g s.2 c).2))

/-- A joystick wired from two distinct ADC collaborators acting on the
two components of a product state (the distinct-resources case of the
data model), with the given conversions, scale factors, channel tokens
and switch. -/
def Joystick.wire (f : σv → V → NbResult WV EV × σv)
    (g : σh → H → NbResult WH EH × σh) (intoV : WV → ℚ) (intoH : WH → ℚ)
    (stepV stepH : ℚ) (cv : V) (ch : H) (sw : InputPin SE) :
    Joystick (σv × σh) V H WV WH EV EH SE :=
  { vertical := { channel := cv, adcRead := liftV f, into := intoV,
                  _step := stepV },
    horizontal := { channel := ch, adcRead := liftH g, into := intoH,
                    _step := stepH },
    switch := sw }

/-- Which axis performed a raw sample — used by the instrumented mock
ADC to record collaborator call order. -/
inductive AxisTag where
  | vertical
  | horizontal
deriving DecidableEq, Repr

/-- An instrumented ADC driver: every sample succeeds with raw word `v`
and appends its axis tag to the call log carried in the collaborator
state. -/
def logRead (t : AxisTag) (v : Nat) :
    List AxisTag → Unit → NbResult Nat Nat × List AxisTag :=
  fun s _ => (Except.ok v, s ++ [t])

/-- A joystick whose two axes share one call log: every raw sample is
recorded in order.  Resolution 8 on both axes. -/
def logJoystick (v h : Nat) :
    Joystick (List AxisTag) Unit Unit Nat Nat Nat Nat Nat :=
  { vertical := { channel := (), adcRead := logRead AxisTag.vertical v,
                  into := Nat.cast, _step := 1 / (2 : ℚ) ^ 8 },
    horizontal := { channel := (),
                    adcRead := logRead AxisTag.horizontal h,
                    into := Nat.cast, _step := 1 / (2 : ℚ) ^ 8 },
    switch := { level := Except.ok PinLevel.low } }

/-- A mock ADC driver that fails with error `e` on its first call (call
counter 0) and succeeds with raw word `v` on every later call. -/
def flakyRead (e : Nat) (v : Nat) : Nat → Unit → NbResult Nat Nat × Nat :=
  fun s _ =>
    (if s = 0 then Except.error (NbError.other e) else Except.ok v, s + 1)

/-- A joystick over two independent mock ADC collaborators (a call
counter each) with resolution 8 on both axes and the given switch
level. -/
def mockJoystick (fv gh : Nat → Unit → NbResult Nat Nat × Nat)
    (sw : Except Nat PinLevel) :
    Joystick (Nat × Nat) Unit Unit Nat Nat Nat Nat Nat :=
  Joystick.wire fv gh Nat.cast Nat.cast (1 / (2 : ℚ) ^ 8)
    (1 / (2 : ℚ) ^ 8) () () { level := sw }

/- ### Helper lemmas -/

/-- `get_position` when the vertical read reports would-block. -/
theorem Joystick.get_position_vertical_would_block
    (j : Joystick σ V H WV WH EV EH SE) (s s₁ : σ)
    (h : j.vertical.read s = (Except.error NbError.wouldBlock, s₁)) :
    j.get_position s = (Except.error NbError.wouldBlock, s₁) := by
  simp [Joystick.get_position, Joystick.get_vertical, h]

/-- `get_position` when the vertical read reports a typed error. -/
theorem Joystick.get_position_vertical_other
    (j : Joystick σ V H WV WH EV EH SE) (s s₁ : σ) (e : EV)
    (h : j.vertical.read s = (Except.error (NbError.other e), s₁)) :
    j.get_position s =
      (Except.error (NbError.other (JoystickError.VerticalADCError e)),
        s₁) := by
  simp [Joystick.get_position, Joystick.get_vertical, h]

/-- `get_position` when vertical succeeds and horizontal reports
would-block. -/
theorem Joystick.get_position_horizontal_would_block
    (j : Joystick σ V H WV WH EV EH SE) (s s₁ s₂ : σ) (v : ℚ)
    (hv : j.vertical.read s = (Except.ok v, s₁))
    (hh : j.horizontal.read s₁ = (Except.error NbError.wouldBlock, s₂)) :
    j.get_position s = (Except.error NbError.wouldBlock, s₂) := by
  simp [Joystick.get_position, Joystick.get_vertical,
    Joystick.get_horizontal, hv, hh]

/-- `get_position` when vertical succeeds and horizontal reports a
typed error. -/
theorem Joystick.get_position_horizontal_other
    (j : Joystick σ V H WV WH EV EH SE) (s s₁ s₂ : σ) (v : ℚ) (e : EH)
    (hv : j.vertical.read s = (Except.ok v, s₁))
    (hh : j.horizontal.read s₁ = (Except.error (NbError.other e), s₂)) :
    j.get_position s =
      (Except.error (NbError.other (JoystickError.HorizontalADCError e)),
        s₂) := by
  simp [Joystick.get_position, Joystick.get_vertical,
    Joystick.get_horizontal, hv, hh]

/-- `get_position` when both reads succeed. -/
theorem Joystick.get_position_both_ok
    (j : Joystick σ V H WV WH EV EH SE) (s s₁ s₂ : σ) (v h : ℚ)
    (hv : j.vertical.read s = (Except.ok v, s₁))
    (hh : j.horizontal.read s₁ = (Except.ok h, s₂)) :
    j.get_position s = (Except.ok (v, h), s₂) := by
  simp [Joystick.get_position, Joystick.get_vertical,
    Joystick.get_horizontal, hv, hh]

/-- For a resolution of at most 31 bits the power fits in `u32` and
`Axis::new` succeeds with scale factor `1 / 2^r`. -/
theorem Axis.new_of_le (f : σ → C → NbResult W E × σ) (into : W → ℚ)
    (c : C) (r : Nat) (hr : r ≤ 31) :
    Axis.new f into c r =
      some { channel := c, adcRead := f, into := into,
             _step := 1 / (2 : ℚ) ^ r } := by
  have hru : usizeToU32 r = r := by
    unfold usizeToU32 u32Size
    omega
  have hlt : 2 ^ r < u32Size := by
    have h1 : 2 ^ r ≤ 2 ^ 31 := Nat.pow_le_pow_right (by norm_num) hr
    have h2 : (2 : Nat) ^ 31 < u32Size := by norm_num [u32Size]
    exact lt_of_le_of_lt h1 h2
  simp only [Axis.new, hru, u32Pow2Checked, if_pos hlt, Option.map_some]
  norm_num

/-- A successful raw sample is scaled by `_step` in `Axis::read`. -/
theorem Axis.read_ok (a : Axis σ C W E) (s₀ s₁ : σ) (w : W)
    (h : a.adcRead s₀ a.channel = (Except.ok w, s₁)) :
    a.read s₀ = (Except.ok (a._step * a.into w), s₁) := by
  simp [Axis.read, Axis.read_raw, h]

/-- A failed raw sample (would-block or typed error) propagates
unchanged through `Axis::read`. -/
theorem Axis.read_err (a : Axis σ C W E) (s₀ s₁ : σ) (ε : NbError E)
    (h : a.adcRead s₀ a.channel = (Except.error ε, s₁)) :
    a.read s₀ = (Except.error ε, s₁) := by
  simp [Axis.read, Axis.read_raw, h]

/- ### C1 -/

/-- C1: for every resolution `r` in 1..16 and every raw sample `s` with
`s < 2^r`, an axis constructed by `Axis::new` with resolution `r` has
scale factor `1 / 2^r`, and `Axis::read` (hence `get_vertical` and
`get_horizontal`, which delegate to it) returns exactly `s / 2^r` — the
construction-time factor times the raw word converted to a float. -/
theorem axis_read_scaling {σ C W E H WH EH SE : Type}
    (f : σ → C → NbResult W E × σ) (into : W → ℚ) (c : C) (r : Nat)
    (a : Axis σ C W E)
    (_hr1 : 1 ≤ r) (hr16 : r ≤ 16)
    (hnew : Axis.new f into c r = some a)
    (s₀ s₁ : σ) (w : W) (s : Nat)
    (hread : f s₀ c = (Except.ok w, s₁))
    (hw : into w = (s : ℚ)) (_hs : s < 2 ^ r) :
    a._step = 1 / 2 ^ r ∧
    a.read s₀ = (Except.ok ((s : ℚ) / 2 ^ r), s₁) ∧
    (∀ (hAxis : Axis σ H WH EH) (sw : InputPin SE),
      Joystick.get_vertical ⟨a, hAxis, sw⟩ s₀ =
        (Except.ok ((s : ℚ) / 2 ^ r), s₁)) ∧
    (∀ (vAxis : Axis σ H WH EH) (sw : InputPin SE),
      Joystick.get_horizontal ⟨vAxis, a, sw⟩ s₀ =
        (Except.ok ((s : ℚ) / 2 ^ r), s₁)) := by
  have hnew31 := Axis.new_of_le f into c r (le_trans hr16 (by norm_num))
  rw [hnew31] at hnew
  have ha : a = { channel := c, adcRead := f, into := into,
                  _step := 1 / (2 : ℚ) ^ r } :=
    (Option.some.inj hnew).symm
  subst ha
  have hrd := Axis.read_ok
    { channel := c, adcRead := f, into := into, _step := 1 / (2 : ℚ) ^ r }
    s₀ s₁ w hread
  dsimp only at hrd
  rw [hw] at hrd
  have hval : (1 / (2 : ℚ) ^ r) * (s : ℚ) = (s : ℚ) / 2 ^ r := by ring
  rw [hval] at hrd
  refine ⟨rfl, hrd, ?_, ?_⟩
  · intro hAxis sw
    simpa [Joystick.get_vertical] using hrd
  · intro vAxis sw
    simpa [Joystick.get_horizontal] using hrd

/-- Witness for C1: resolution 8 with raw 128 yields 128/256 = 0.5. -/
theorem axis_read_scaling_witness :
    (mockAxis 128).read 0 = (Except.ok ((1 : ℚ) / 2), 1) := by
  have hnew : Axis.new (mockOk 128) Nat.cast () 8 = some (mockAxis 128) :=
    Axis.new_of_le (mockOk 128) Nat.cast () 8 (by norm_num)
  have h := @axis_read_scaling Nat Unit Nat Nat Unit Nat Nat Nat
    (mockOk 128) Nat.cast () 8 (mockAxis 128)
    (by norm_num) (by norm_num) hnew 0 1 128 128 rfl (by norm_num)
    (by norm_num)
  have hv : ((128 : Nat) : ℚ) / 2 ^ 8 = (1 : ℚ) / 2 := by norm_num
  rw [hv] at h
  exact h.2.1

/- ### C5 -/

/-- C5: for every resolution `r ≤ 31` the scale factor computed at
construction is exactly `1 / 2^r`, positive and a finite binary32
value, and for every raw sample `s < 2^r` the normalized value returned
by `read` lies in `[0, 1)`. -/
theorem axis_scale_factor_finite_and_read_in_range {σ C W E : Type}
    (f : σ → C → NbResult W E × σ) (into : W → ℚ) (c : C) (r : Nat)
    (a : Axis σ C W E) (hr : r ≤ 31)
    (hnew : Axis.new f into c r = some a) :
    a._step = 1 / 2 ^ r ∧ 0 < a._step ∧ repF32 a._step ∧
    ∀ (s₀ s₁ : σ) (w : W) (s : Nat), f s₀ c = (Except.ok w, s₁) →
      into w = (s : ℚ) → s < 2 ^ r →
      ∃ q : ℚ, a.read s₀ = (Except.ok q, s₁) ∧ 0 ≤ q ∧ q < 1 := by
  have hnew31 := Axis.new_of_le f into c r hr
  rw [hnew31] at hnew
  have ha : a = { channel := c, adcRead := f, into := into,
                  _step := 1 / (2 : ℚ) ^ r } :=
    (Option.some.inj hnew).symm
  subst ha
  have hpos : (0 : ℚ) < 1 / (2 : ℚ) ^ r := by positivity
  refine ⟨rfl, hpos, ?_, ?_⟩
  · refine ⟨1, -(r : ℤ), by norm_num, by omega, by omega, ?_⟩
    rw [zpow_neg, zpow_natCast]
    norm_num
  · intro s₀ s₁ w s hread hw hs
    have hrd := Axis.read_ok
      { channel := c, adcRead := f, into := into,
        _step := 1 / (2 : ℚ) ^ r } s₀ s₁ w hread
    dsimp only at hrd
    rw [hw] at hrd
    refine ⟨(1 / (2 : ℚ) ^ r) * (s : ℚ), hrd, ?_, ?_⟩
    · positivity
    · have hslt : (s : ℚ) < (2 : ℚ) ^ r := by
        have := (Nat.cast_lt (α := ℚ)).mpr hs
        simpa using this
      have h2 : (0 : ℚ) < (2 : ℚ) ^ r := by positivity
      calc (1 / (2 : ℚ) ^ r) * (s : ℚ) = (s : ℚ) / (2 : ℚ) ^ r := by ring
        _ < 1 := (div_lt_one h2).mpr hslt

/-- Witness for C5: resolution 8, raw 128 — the scale factor is
`1/256`, positive, binary32-representable, and the read value lies in
`[0, 1)`. -/
theorem axis_scale_factor_finite_and_read_in_range_witness :
    (mockAxis 128)._step = 1 / 2 ^ 8 ∧ 0 < (mockAxis 128)._step ∧
    repF32 (mockAxis 128)._step ∧
    ∃ q : ℚ, (mockAxis 128).read 0 = (Except.ok q, 1) ∧ 0 ≤ q ∧ q < 1 := by
  have hnew : Axis.new (mockOk 128) Nat.cast () 8 = some (mockAxis 128) :=
    Axis.new_of_le (mockOk 128) Nat.cast () 8 (by norm_num)
  have h := axis_scale_factor_finite_and_read_in_range (mockOk 128)
    Nat.cast () 8 (mockAxis 128) (by norm_num) hnew
  exact ⟨h.1, h.2.1, h.2.2.1,
    h.2.2.2 0 1 128 128 rfl (by norm_num) (by norm_num)⟩

/- ### C2 -/

/-- C2: whenever the vertical read reports would-block, `get_position`
returns `WouldBlock` unchanged (not wrapped in `JoystickError`) and the
horizontal ADC collaborator is not sampled at all: its state component
`sh` is untouched in the returned configuration. -/
theorem get_position_would_block_short_circuit
    {σv σh V H WV WH EV EH SE : Type}
    (f : σv → V → NbResult WV EV × σv) (g : σh → H → NbResult WH EH × σh)
    (intoV : WV → ℚ) (intoH : WH → ℚ) (stepV stepH : ℚ) (cv : V) (ch : H)
    (sw : InputPin SE) (sv : σv) (sh : σh) (sv₁ : σv)
    (hv : f sv cv = (Except.error NbError.wouldBlock, sv₁)) :
    (Joystick.wire f g intoV intoH stepV stepH cv ch sw).get_position
        (sv, sh) =
      (Except.error NbError.wouldBlock, (sv₁, sh)) := by
  apply Joystick.get_position_vertical_would_block
  apply Axis.read_err
  simp [Joystick.wire, liftV, hv]

/-- Witness for C2: a not-ready vertical ADC next to a ready horizontal
ADC — `get_position` reports would-block and the horizontal call
counter stays 0. -/
theorem get_position_would_block_short_circuit_witness :
    (mockJoystick (mockErr NbError.wouldBlock) (mockOk 64)
        (Except.ok PinLevel.low)).get_position (0, 0) =
      (Except.error NbError.wouldBlock, (1, 0)) := by
  exact get_position_would_block_short_circuit
    (mockErr NbError.wouldBlock) (mockOk 64) Nat.cast Nat.cast
    (1 / (2 : ℚ) ^ 8) (1 / (2 : ℚ) ^ 8) () ()
    { level := Except.ok PinLevel.low } 0 0 1 rfl

/- ### C3 -/

/-- C3: a typed vertical ADC error is returned tagged as
`VerticalADCError` with the horizontal collaborator untouched; when
vertical succeeds and horizontal fails, the error is tagged
`HorizontalADCError`; and the single-axis accessors `get_vertical` and
`get_horizontal` surface the untagged underlying `nb` error
unchanged. -/
theorem get_position_error_tagging {σv σh V H WV WH EV EH SE : Type}
    (f : σv → V → NbResult WV EV × σv) (g : σh → H → NbResult WH EH × σh)
    (intoV : WV → ℚ) (intoH : WH → ℚ) (stepV stepH : ℚ) (cv : V) (ch : H)
    (sw : InputPin SE) :
    (∀ (sv : σv) (sh : σh) (sv₁ : σv) (e : EV),
      f sv cv = (Except.error (NbError.other e), sv₁) →
      (Joystick.wire f g intoV intoH stepV stepH cv ch sw).get_position
          (sv, sh) =
        (Except.error (NbError.other (JoystickError.VerticalADCError e)),
          (sv₁, sh))) ∧
    (∀ (sv : σv) (sh : σh) (sv₁ : σv) (sh₁ : σh) (w : WV) (e₂ : EH),
      f sv cv = (Except.ok w, sv₁) →
      g sh ch = (Except.error (NbError.other e₂), sh₁) →
      (Joystick.wire f g intoV intoH stepV stepH cv ch sw).get_position
          (sv, sh) =
        (Except.error
            (NbError.other (JoystickError.HorizontalADCError e₂)),
          (sv₁, sh₁))) ∧
    (∀ (sv : σv) (sh : σh) (sv₁ : σv) (ε : NbError EV),
      f sv cv = (Except.error ε, sv₁) →
      (Joystick.wire f g intoV intoH stepV stepH cv ch sw).get_vertical
          (sv, sh) =
        (Except.error ε, (sv₁, sh))) ∧
    (∀ (sv : σv) (sh : σh) (sh₁ : σh) (ε : NbError EH),
      g sh ch = (Except.error ε, sh₁) →
      (Joystick.wire f g intoV intoH stepV stepH cv ch sw).get_horizontal
          (sv, sh) =
        (Except.error ε, (sv, sh₁))) := by
  refine ⟨?_, ?_, ?_, ?_⟩
  · intro sv sh sv₁ e hv
    apply Joystick.get_position_vertical_other
    apply Axis.read_err
    simp [Joystick.wire, liftV, hv]
  · intro sv sh sv₁ sh₁ w e₂ hv hh
    refine Joystick.get_position_horizontal_other _ (sv, sh) (sv₁, sh)
      (sv₁, sh₁) (stepV * intoV w) e₂ ?_ ?_
    · apply Axis.read_ok
      simp [Joystick.wire, liftV, hv]
    · apply Axis.read_err
      simp [Joystick.wire, liftH, hh]
  · intro sv sh sv₁ ε hv
    show Axis.read _ _ = _
    apply Axis.read_err
    simp [Joystick.wire, liftV, hv]
  · intro sv sh sh₁ ε hh
    show Axis.read _ _ = _
    apply Axis.read_err
    simp [Joystick.wire, liftH, hh]

/-- Witness for C3: vertical error 7 is tagged vertical with the
horizontal counter untouched; vertical ok then horizontal error 9 is
tagged horizontal; the single-axis accessors surface errors 7 and 9
untagged. -/
theorem get_position_error_tagging_witness :
    (mockJoystick (mockErr (NbError.other 7)) (mockOk 64)
        (Except.ok PinLevel.low)).get_position (0, 0) =
      (Except.error (NbError.other (JoystickError.VerticalADCError 7)),
        (1, 0)) ∧
    (mockJoystick (mockOk 128) (mockErr (NbError.other 9))
        (Except.ok PinLevel.low)).get_position (0, 0) =
      (Except.error (NbError.other (JoystickError.HorizontalADCError 9)),
        (1, 1)) ∧
    (mockJoystick (mockErr (NbError.other 7)) (mockOk 64)
        (Except.ok PinLevel.low)).get_vertical (0, 0) =
      (Except.error (NbError.other 7), (1, 0)) ∧
    (mockJoystick (mockOk 128) (mockErr (NbError.other 9))
        (Except.ok PinLevel.low)).get_horizontal (0, 0) =
      (Except.error (NbError.other 9), (0, 1)) := by
  obtain ⟨hA, -, hC, -⟩ := get_position_error_tagging
    (mockErr (NbError.other 7)) (mockOk 64) Nat.cast Nat.cast
    (1 / (2 : ℚ) ^ 8) (1 / (2 : ℚ) ^ 8) () ()
    { level := Except.ok PinLevel.low }
  obtain ⟨-, hB, -, hD⟩ := get_position_error_tagging (mockOk 128)
    (mockErr (NbError.other 9)) Nat.cast Nat.cast (1 / (2 : ℚ) ^ 8)
    (1 / (2 : ℚ) ^ 8) () () { level := Except.ok PinLevel.low }
  exact ⟨hA 0 0 1 7 rfl, hB 0 0 1 1 128 9 rfl rfl,
    hC 0 0 1 (NbError.other 7) rfl, hD 0 0 1 (NbError.other 9) rfl⟩

/- ### C4 -/

/-- C4: `get_position` samples vertical strictly before horizontal —
the horizontal read is applied to the collaborator state produced by
the vertical read — and when both succeed it returns the ordered pair
`(vertical_value, horizontal_value)` with horizontal's post-state.
Instantiated on the instrumented call-log joystick (see the witness)
this yields the log `[vertical, horizontal]`. -/
theorem get_position_vertical_before_horizontal
    {σ V H WV WH EV EH SE : Type}
    (j : Joystick σ V H WV WH EV EH SE) (s s₁ s₂ : σ) (v h : ℚ)
    (hv : j.vertical.read s = (Except.ok v, s₁))
    (hh : j.horizontal.read s₁ = (Except.ok h, s₂)) :
    j.get_position s = (Except.ok (v, h), s₂) :=
  Joystick.get_position_both_ok j s s₁ s₂ v h hv hh

/-- Witness for C4: on the call-log joystick with raw words 128 and 64
at resolution 8, `get_position` returns `(0.5, 0.25)` and the log shows
the vertical sample strictly before the horizontal one. -/
theorem get_position_vertical_before_horizontal_witness :
    (logJoystick 128 64).get_position [] =
      (Except.ok ((1 : ℚ) / 2, (1 : ℚ) / 4),
        [AxisTag.vertical, AxisTag.horizontal]) := by
  apply get_position_vertical_before_horizontal (logJoystick 128 64) []
    [AxisTag.vertical] [AxisTag.vertical, AxisTag.horizontal]
  · have h := Axis.read_ok (logJoystick 128 64).vertical []
      [AxisTag.vertical] 128 (by simp [logJoystick, logRead])
    rw [h]
    norm_num [logJoystick]
  · have h := Axis.read_ok (logJoystick 128 64).horizontal
      [AxisTag.vertical] [AxisTag.vertical, AxisTag.horizontal] 64
      (by simp [logJoystick, logRead])
    rw [h]
    norm_num [logJoystick]

/- ### C6 -/

/-- C6: `switch_pressed` returns `Ok true` exactly when the digital
input capability reports the high/active level, `Ok false` when it
reports low, and the capability's error unchanged otherwise; the call
leaves the ADC collaborator state untouched, and its result type has no
would-block variant (the trichotomy below is exhaustive). -/
theorem switch_pressed_spec {σ V H WV WH EV EH SE : Type}
    (j : Joystick σ V H WV WH EV EH SE) :
    (j.switch_pressed = Except.ok true ↔
      j.switch.level = Except.ok PinLevel.high) ∧
    (j.switch_pressed = Except.ok false ↔
      j.switch.level = Except.ok PinLevel.low) ∧
    (∀ e : SE, j.switch.level = Except.error e →
      j.switch_pressed = Except.error e) ∧
    (∀ s : σ, j.runOp s JoyOp.switchPressed = (j, s)) ∧
    ((∃ b : Bool, j.switch_pressed = Except.ok b) ∨
      ∃ e : SE, j.switch.level = Except.error e ∧
        j.switch_pressed = Except.error e) := by
  refine ⟨?_, ?_, ?_, fun s => rfl, ?_⟩
  · cases hl : j.switch.level with
    | ok l => cases l <;>
        simp [Joystick.switch_pressed, InputPin.is_high, hl]
    | error e => simp [Joystick.switch_pressed, InputPin.is_high, hl]
  · cases hl : j.switch.level with
    | ok l => cases l <;>
        simp [Joystick.switch_pressed, InputPin.is_high, hl]
    | error e => simp [Joystick.switch_pressed, InputPin.is_high, hl]
  · intro e hl
    simp [Joystick.switch_pressed, InputPin.is_high, hl]
  · cases hl : j.switch.level with
    | ok l =>
        refine Or.inl ⟨decide (l = PinLevel.high), ?_⟩
        simp [Joystick.switch_pressed, InputPin.is_high, hl]
    | error e =>
        refine Or.inr ⟨e, rfl, ?_⟩
        simp [Joystick.switch_pressed, InputPin.is_high, hl]

/-- Witness for C6: a high pin gives `Ok true`, a low pin `Ok false`,
a failing pin surfaces error 3 unchanged, and the call leaves the whole
configuration (joystick and ADC state) as it was. -/
theorem switch_pressed_spec_witness :
    (mockJoystick (mockOk 128) (mockOk 64)
        (Except.ok PinLevel.high)).switch_pressed = Except.ok true ∧
    (mockJoystick (mockOk 128) (mockOk 64)
        (Except.ok PinLevel.low)).switch_pressed = Except.ok false ∧
    (mockJoystick (mockOk 128) (mockOk 64)
        (Except.error 3)).switch_pressed = Except.error 3 ∧
    (mockJoystick (mockOk 128) (mockOk 64)
        (Except.ok PinLevel.high)).runOp (0, 0) JoyOp.switchPressed =
      (mockJoystick (mockOk 128) (mockOk 64) (Except.ok PinLevel.high),
        (0, 0)) := by
  refine ⟨?_, ?_, ?_, ?_⟩
  · exact (switch_pressed_spec (mockJoystick (mockOk 128) (mockOk 64)
      (Except.ok PinLevel.high))).1.mpr rfl
  · exact (switch_pressed_spec (mockJoystick (mockOk 128) (mockOk 64)
      (Except.ok PinLevel.low))).2.1.mpr rfl
  · exact (switch_pressed_spec (mockJoystick (mockOk 128) (mockOk 64)
      (Except.error 3))).2.2.1 3 rfl
  · exact (switch_pressed_spec (mockJoystick (mockOk 128) (mockOk 64)
      (Except.ok PinLevel.high))).2.2.2.1 (0, 0)

/- ### C8 -/

/-- C8: no public read operation modifies any field of the joystick or
its axes (scale factors, channel bindings, ADC references, switch): the
joystick component of the configuration is unchanged by every
operation.  No retry state is retained: after `get_position` returns a
tagged error leaving collaborator state `s₁`, the next call depends on
`s₁` alone, re-enters at the vertical axis, and succeeds whenever both
collaborators are then ready. -/
theorem joystick_reads_stateless {σ V H WV WH EV EH SE : Type}
    (j : Joystick σ V H WV WH EV EH SE) (s : σ) :
    (∀ op : JoyOp, (j.runOp s op).1 = j) ∧
    (∀ (s₁ : σ) (e : JoystickError EV EH),
      j.get_position s = (Except.error (NbError.other e), s₁) →
      ∀ (v h : ℚ) (s₂ s₃ : σ),
        j.vertical.read s₁ = (Except.ok v, s₂) →
        j.horizontal.read s₂ = (Except.ok h, s₃) →
        j.get_position s₁ = (Except.ok (v, h), s₃)) := by
  constructor
  · intro op
    cases op <;> rfl
  · intro s₁ e _ v h s₂ s₃ hv hh
    exact Joystick.get_position_both_ok j s₁ s₂ s₃ v h hv hh

/-- Witness for C8: a vertical ADC that fails once then recovers — the
call leaves the joystick fields unchanged, and the call after the
tagged error starts over at vertical and returns `(0.5, 0.25)`. -/
theorem joystick_reads_stateless_witness :
    ((mockJoystick (flakyRead 7 128) (mockOk 64)
        (Except.ok PinLevel.low)).runOp (0, 0) JoyOp.getPosition).1 =
      mockJoystick (flakyRead 7 128) (mockOk 64)
        (Except.ok PinLevel.low) ∧
    (mockJoystick (flakyRead 7 128) (mockOk 64)
        (Except.ok PinLevel.low)).get_position (1, 0) =
      (Except.ok ((1 : ℚ) / 2, (1 : ℚ) / 4), (2, 1)) := by
  have h := joystick_reads_stateless
    (mockJoystick (flakyRead 7 128) (mockOk 64) (Except.ok PinLevel.low))
    (0, 0)
  refine ⟨h.1 JoyOp.getPosition, ?_⟩
  refine h.2 (1, 0) (JoystickError.VerticalADCError 7) ?_ (1 / 2) (1 / 4)
    (2, 0) (2, 1) ?_ ?_
  · apply Joystick.get_position_vertical_other _ _ _ 7
    apply Axis.read_err
    simp [mockJoystick, Joystick.wire, liftV, flakyRead]
  · have hr := Axis.read_ok (mockJoystick (flakyRead 7 128) (mockOk 64)
      (Except.ok PinLevel.low)).vertical (1, 0) (2, 0) 128
      (by simp [mockJoystick, Joystick.wire, liftV, flakyRead])
    rw [hr]
    norm_num [mockJoystick, Joystick.wire]
  · have hr := Axis.read_ok (mockJoystick (flakyRead 7 128) (mockOk 64)
      (Except.ok PinLevel.low)).horizontal (2, 0) (2, 1) 64
      (by simp [mockJoystick, Joystick.wire, liftH, mockOk])
    rw [hr]
    norm_num [mockJoystick, Joystick.wire]

/- ### C9 -/

/-- C9: the scale-factor computation `2u32.pow(resolution as u32)`
stays inside `u32` exactly for truncated resolutions up to 31:
`Axis::new` succeeds with scale factor `1/2^r` for `r ≤ 31`, while for
every resolution `32 ≤ r < 2^32` the checked power overflows — debug
builds panic (modelled as `none`) — and the release wrapping power is
0, so the scale factor becomes `1.0 / 0.0`, which is not a finite
float.  (`usizeToU32` is the `as u32` truncation of the resolution.) -/
theorem axis_new_panic_boundary {σ C W E : Type}
    (f : σ → C → NbResult W E × σ) (into : W → ℚ) (c : C) :
    (∀ r : Nat, r ≤ 31 → Axis.new f into c r =
      some { channel := c, adcRead := f, into := into,
             _step := 1 / (2 : ℚ) ^ r }) ∧
    (∀ r : Nat, 32 ≤ r → r < u32Size → Axis.new f into c r = none) ∧
    (∀ r : Nat, r < u32Size → ((Axis.new f into c r).isSome ↔ r ≤ 31)) ∧
    (∀ r : Nat, 32 ≤ r → r < u32Size →
      u32Pow2Wrapping (usizeToU32 r) = 0) := by
  have hwrap : ∀ r : Nat, 32 ≤ r → r < u32Size →
      u32Pow2Wrapping (usizeToU32 r) = 0 := by
    intro r h32 hlt
    have hru : usizeToU32 r = r := Nat.mod_eq_of_lt hlt
    have hsplit : 2 ^ r = u32Size * 2 ^ (r - 32) := by
      rw [show r = 32 + (r - 32) by omega, pow_add]
      norm_num [u32Size]
    rw [u32Pow2Wrapping, hru, hsplit]
    exact Nat.mul_mod_right _ _
  have hnone : ∀ r : Nat, 32 ≤ r → r < u32Size →
      Axis.new f into c r = none := by
    intro r h32 hlt
    have hru : usizeToU32 r = r := Nat.mod_eq_of_lt hlt
    have hge : u32Size ≤ 2 ^ r := by
      have h1 : (2 : Nat) ^ 32 ≤ 2 ^ r :=
        Nat.pow_le_pow_right (by norm_num) h32
      simpa [u32Size] using h1
    simp [Axis.new, hru, u32Pow2Checked, Nat.not_lt_of_le hge]
  refine ⟨fun r hr => Axis.new_of_le f into c r hr, hnone, ?_, hwrap⟩
  intro r hlt
  constructor
  · intro hsome
    by_contra h31
    have h32 : 32 ≤ r := by omega
    rw [hnone r h32 hlt] at hsome
    simp at hsome
  · intro h31
    rw [Axis.new_of_le f into c r h31]
    simp

/-- Witness for C9: resolution 8 constructs with scale factor `1/256`;
resolution 32 overflows — debug-checked construction panics and the
release wrapping power is 0. -/
theorem axis_new_panic_boundary_witness :
    Axis.new (mockOk 0) Nat.cast () 8 =
      some { channel := (), adcRead := mockOk 0, into := Nat.cast,
             _step := 1 / (2 : ℚ) ^ 8 } ∧
    Axis.new (mockOk 0) Nat.cast () 32 = none ∧
    u32Pow2Wrapping (usizeToU32 32) = 0 := by
  have h := axis_new_panic_boundary (mockOk 0) Nat.cast ()
  exact ⟨h.1 8 (by norm_num),
    h.2.1 32 (by norm_num) (by norm_num [u32Size]),
    h.2.2.2 32 (by norm_num) (by norm_num [u32Size])⟩

/- ### C10 -/

/-- C10: the `Display` implementation of `JoystickError` erases the
axis tag — with equal inner error types and display function, a
vertical-tagged and a horizontal-tagged error format to the same
string, namely the inner error's own display output. -/
theorem joystick_error_display_erases_tag {E : Type} (d : E → String)
    (e : E) :
    JoystickError.fmt d d (JoystickError.VerticalADCError e) =
      JoystickError.fmt d d (JoystickError.HorizontalADCError e) ∧
    JoystickError.fmt d d (JoystickError.VerticalADCError e) = d e :=
  ⟨rfl, rfl⟩

end EmbeddedJoystick
